import Mathlib

/-!
Verification of the `mcp-server-sqlite-npx` server core (`src/index.ts`).

Strings from the TypeScript source are embedded as `List Char`; the JavaScript
string methods used by the source (`trim`, `toUpperCase`, `startsWith`) are
modelled character-wise.  The external sqlite3 engine is an abstract `Engine`
record of its two callbacks (`db.all`, `db.run`), each of which may fail with
an error message; the calls issued to the engine are recorded in a trace so
that "statement reaches the engine" is observable.  The tool-call dispatcher
(`CallToolRequestSchema` handler) is embedded as a total function whose
try/catch boundary is an `Except` that is converted to the response envelope.
-/

namespace McpSqlite

/-- Embedded JavaScript string: a list of unicode characters. -/
abbrev Str := List Char

/-- Whitespace recognised by the model of `String.prototype.trim`
(ASCII whitespace: space, tab, line feed, carriage return, vertical tab,
form feed). -/
def isWsChar (c : Char) : Bool :=
  c = ' ' || c = '\t' || c = '\n' || c = '\r' || c = '\x0b' || c = '\x0c'

/-- Model of `String.prototype.trim`: drop whitespace from both ends. -/
def jsTrim (s : Str) : Str :=
  ((s.dropWhile isWsChar).reverse.dropWhile isWsChar).reverse

/-- Model of `String.prototype.toUpperCase`, character-wise
(`Char.toUpper` uppercases the basic latin letters, which covers the
ASCII SQL keywords the source inspects). -/
def jsToUpper (s : Str) : Str := s.map Char.toUpper

/-- Model of `String.prototype.startsWith`. -/
def jsStartsWith (pat s : Str) : Bool := pat.isPrefixOf s

/-- The SELECT test of `SqliteDatabase.query`:
`sql.trim().toUpperCase().startsWith('SELECT')` (src/index.ts line 60). -/
def isSelect (sql : Str) : Bool :=
  jsStartsWith "SELECT".toList (jsToUpper (jsTrim sql))

/-- The CREATE TABLE test of `SqliteDatabase.createTable`:
`query.trim().toUpperCase().startsWith('CREATE TABLE')` (line 130). -/
def isCreateTable (sql : Str) : Bool :=
  jsStartsWith "CREATE TABLE".toList (jsToUpper (jsTrim sql))

/-- SQL statement categories of the specification (section 4.2). -/
inductive SqlCategory
  | Read
  | Write
  | SchemaDefinition
deriving DecidableEq, Repr

/-- The statement classifier: the source's prefix tests combined into the
classification function of spec section 4.2 (SELECT prefix gives Read,
CREATE TABLE prefix gives SchemaDefinition, everything else Write). -/
def classify (sql : Str) : SqlCategory :=
  if isSelect sql then SqlCategory.Read
  else if isCreateTable sql then SqlCategory.SchemaDefinition
  else SqlCategory.Write

/-- A JavaScript value appearing in an argument bag or a result row. -/
inductive Value
  | vstr (s : Str)
  | vnum (n : Int)
  | vbool (b : Bool)
  | vnull
deriving DecidableEq, Repr

/-- A result row: an ordered mapping from column name to value. -/
abbrev Row := List (String × Value)

/-- The external sqlite3 engine: `db.all` resolves rows, `db.run` resolves
the number of changed rows; either may fail with an engine error message. -/
structure Engine where
  all : Str → Except Str (List Row)
  run : Str → Except Str Nat

/-- A call issued to the engine (so that "statement reaches the engine"
is observable in theorems). -/
inductive EngineCall
  | allCall (sql : Str)
  | runCall (sql : Str)
deriving DecidableEq, Repr

/-- The SQL text carried by an engine call. -/
def EngineCall.sql : EngineCall → Str
  | .allCall s => s
  | .runCall s => s

/-- `SqliteDatabase.query` (lines 55-74): dispatch on the SELECT prefix;
a SELECT goes to `db.all` and resolves the rows, anything else goes to
`db.run` and resolves `[{ affectedRows: this.changes }]`.  The second
component records the engine calls that were made. -/
def query (e : Engine) (sql : Str) : Except Str (List Row) × List EngineCall :=
  if isSelect sql then
    (e.all sql, [EngineCall.allCall sql])
  else
    ((e.run sql).map (fun changes => [[("affectedRows", Value.vnum (Int.ofNat changes))]]),
     [EngineCall.runCall sql])

/-- `SqliteDatabase.synthesizeMemo` (lines 76-95). -/
def synthesizeMemo (insights : List Str) : Str :=
  if insights.length = 0 then
    "No business insights have been discovered yet.".toList
  else
    let joined := List.intercalate "\n".toList
      (insights.map (fun insight => "- ".toList ++ insight))
    let memo := "📊 Business Intelligence Memo 📊\n\n".toList
      ++ "Key Insights Discovered:\n\n".toList ++ joined
    if insights.length > 1 then
      memo ++ "\n\nSummary:\n".toList
        ++ ("Analysis has revealed ".toList ++ (toString insights.length).toList
            ++ " key business insights that suggest opportunities for strategic optimization and growth.".toList)
    else memo

/-- `SqliteDatabase.appendInsight` (lines 97-99): `this.insights.push(insight)`. -/
def appendInsight (insights : List Str) (insight : Str) : List Str :=
  insights ++ [insight]

/-- `SqliteDatabase.listTables` (lines 101-105). -/
def listTables (e : Engine) : Except Str (List Row) × List EngineCall :=
  query e "SELECT name FROM sqlite_master WHERE type='table'".toList

/-- `SqliteDatabase.describeTable` (lines 107-109): the table name is
interpolated directly into the PRAGMA statement. -/
def describeTable (e : Engine) (tableName : Str) : Except Str (List Row) × List EngineCall :=
  query e ("PRAGMA table_info(".toList ++ tableName ++ ")".toList)

/-- `SqliteDatabase.executeReadQuery` (lines 111-118). -/
def executeReadQuery (e : Engine) (q : Str) : Except Str (List Row) × List EngineCall :=
  if ¬ isSelect q then
    (Except.error "Only SELECT queries are allowed for read_query".toList, [])
  else query e q

/-- `SqliteDatabase.executeWriteQuery` (lines 120-127). -/
def executeWriteQuery (e : Engine) (q : Str) : Except Str (List Row) × List EngineCall :=
  if isSelect q then
    (Except.error "SELECT queries are not allowed for write_query".toList, [])
  else query e q

/-- `SqliteDatabase.createTable` (lines 129-134). -/
def createTable (e : Engine) (q : Str) : Except Str (List Row) × List EngineCall :=
  if ¬ isCreateTable q then
    (Except.error "Only CREATE TABLE statements are allowed".toList, [])
  else query e q

/-- An untyped argument bag: field name to value, as delivered by the caller. -/
abbrev ArgBag := List (String × Value)

/-- Model of `zodObjectSchema.safeParse` for the argument schemas of the
source (each is an object with one required string field): a missing field
or a non-string value fails with a zod issue description; unknown fields
are ignored (zod's default).  The zod library itself is external; only the
success/failure shape it exposes to the handler is modelled. -/
def parseStringField (args : ArgBag) (field : String) : Except Str Str :=
  match args.find? (fun kv => kv.1 = field) with
  | some (_, Value.vstr s) => Except.ok s
  | some _ => Except.error "invalid_type".toList
  | none => Except.error "Required".toList

/-- The response envelope `{ content: [{ text }], isError? }`; an absent
`isError` is modelled as `false`. -/
structure Envelope where
  content : List Str
  isError : Bool
deriving DecidableEq, Repr

/-- Model of `JSON.stringify` on a value (external runtime function; only
used to turn result rows into the envelope text, which no contract of the
source inspects further). -/
def renderValue : Value → Str
  | Value.vstr s => '"' :: (s ++ ['"'])
  | Value.vnum n => (toString n).toList
  | Value.vbool b => (toString b).toList
  | Value.vnull => "null".toList

/-- Model of `JSON.stringify` on a row object. -/
def renderRow (r : Row) : Str :=
  ['{'] ++ List.intercalate ", ".toList
      (r.map (fun kv => '"' :: (kv.1.toList ++ "\": ".toList ++ renderValue kv.2)))
    ++ ['}']

/-- Model of `JSON.stringify` on a list of rows. -/
def renderRows (rs : List Row) : Str :=
  ['['] ++ List.intercalate ", ".toList (rs.map renderRow) ++ [']']

/-- The switch body of the `CallToolRequestSchema` handler (lines 205-294),
before the surrounding try/catch: given the engine, the current insight
ledger, the operation name and the argument bag, it either produces the
success envelope or throws an error message (`Except.error`), together with
the ledger after the call and the trace of engine calls made. -/
def handleSwitch (e : Engine) (insights : List Str) (name : String) (args : ArgBag) :
    Except Str Envelope × List Str × List EngineCall :=
  if name = "read_query" then
    match parseStringField args "query" with
    | Except.error zerr =>
        (Except.error ("Invalid arguments for read_query: ".toList ++ zerr), insights, [])
    | Except.ok q =>
        match executeReadQuery e q with
        | (Except.error msg, calls) => (Except.error msg, insights, calls)
        | (Except.ok results, calls) =>
            (Except.ok ⟨[renderRows results], false⟩, insights, calls)
  else if name = "write_query" then
    match parseStringField args "query" with
    | Except.error zerr =>
        (Except.error ("Invalid arguments for write_query: ".toList ++ zerr), insights, [])
    | Except.ok q =>
        match executeWriteQuery e q with
        | (Except.error msg, calls) => (Except.error msg, insights, calls)
        | (Except.ok results, calls) =>
            (Except.ok ⟨[renderRows results], false⟩, insights, calls)
  else if name = "create_table" then
    match parseStringField args "query" with
    | Except.error zerr =>
        (Except.error ("Invalid arguments for create_table: ".toList ++ zerr), insights, [])
    | Except.ok q =>
        match createTable e q with
        | (Except.error msg, calls) => (Except.error msg, insights, calls)
        | (Except.ok _, calls) =>
            (Except.ok ⟨["Table created successfully".toList], false⟩, insights, calls)
  else if name = "list_tables" then
    match listTables e with
    | (Except.error msg, calls) => (Except.error msg, insights, calls)
    | (Except.ok tables, calls) =>
        (Except.ok ⟨[renderRows tables], false⟩, insights, calls)
  else if name = "describe_table" then
    match parseStringField args "table_name" with
    | Except.error zerr =>
        (Except.error ("Invalid arguments for describe_table: ".toList ++ zerr), insights, [])
    | Except.ok t =>
        match describeTable e t with
        | (Except.error msg, calls) => (Except.error msg, insights, calls)
        | (Except.ok schema, calls) =>
            (Except.ok ⟨[renderRows schema], false⟩, insights, calls)
  else if name = "append_insight" then
    match parseStringField args "insight" with
    | Except.error zerr =>
        (Except.error ("Invalid arguments for append_insight: ".toList ++ zerr), insights, [])
    | Except.ok i =>
        (Except.ok ⟨["Insight added to memo".toList], false⟩, appendInsight insights i, [])
  else
    (Except.error ("Unknown tool: ".toList ++ name.toList), insights, [])

/-- The outcome of one dispatch call: the response envelope, the insight
ledger after the call, and the engine calls made during the call. -/
structure DispatchResult where
  envelope : Envelope
  insights : List Str
  calls : List EngineCall
deriving DecidableEq, Repr

/-- The full `CallToolRequestSchema` handler (lines 205-303): the try/catch
boundary converts every thrown error into the error-flagged envelope
`{ content: [{ text: 'Error: ' + message }], isError: true }`. -/
def handleCallTool (e : Engine) (insights : List Str) (name : String) (args : ArgBag) :
    DispatchResult :=
  match handleSwitch e insights name args with
  | (Except.ok env, ins, calls) => ⟨env, ins, calls⟩
  | (Except.error msg, ins, calls) => ⟨⟨["Error: ".toList ++ msg], true⟩, ins, calls⟩

/-- The category declared for each SQL-category-enforced operation
(spec sections 3 and 6). -/
def declaredCategory : String → Option SqlCategory
  | "read_query" => some SqlCategory.Read
  | "write_query" => some SqlCategory.Write
  | "create_table" => some SqlCategory.SchemaDefinition
  | _ => none

/-- A concrete engine that always succeeds, returning no rows and zero
changes; used to instantiate universally quantified theorems. -/
def okEngine : Engine where
  all := fun _ => Except.ok []
  run := fun _ => Except.ok 0

/-- A concrete engine that always fails, with a sqlite-style message;
used to instantiate the error-propagation theorems. -/
def failEngine : Engine where
  all := fun _ => Except.error "SQLITE_ERROR: no such table: nope".toList
  run := fun _ => Except.error "SQLITE_ERROR: near WAT: syntax error".toList

/-- Number of occurrences of `pat` as a contiguous substring of `s`
(counting start positions). -/
def countOccur (pat s : Str) : Nat :=
  ((List.range (s.length + 1)).filter (fun i => pat.isPrefixOf (s.drop i))).length

/-- Whitespace characters have code points at most 32. -/
theorem isWsChar_toNat_le {c : Char} (h : isWsChar c = true) : c.toNat ≤ 32 := by
  simp only [isWsChar, Bool.or_eq_true, decide_eq_true_eq] at h
  rcases h with ((((h | h) | h) | h) | h) | h <;> subst h <;> decide

/-- Uppercasing preserves whitespace-ness. -/
theorem isWsChar_toUpper (c : Char) : isWsChar (Char.toUpper c) = isWsChar c := by
  simp only [Char.toUpper]
  split
  · rename_i h
    have hge : 97 ≤ c.toNat := h.1
    have hle : c.toNat ≤ 122 := h.2
    have hc : isWsChar c = false := by
      cases hwc : isWsChar c
      · rfl
      · have := isWsChar_toNat_le hwc
        omega
    rw [hc]
    revert hge hle
    generalize c.toNat = n
    intro hge hle
    interval_cases n <;> decide
  · rfl

/-- `dropWhile` of whitespace commutes with character-wise uppercasing. -/
theorem dropWhile_jsToUpper (s : Str) :
    (jsToUpper s).dropWhile isWsChar = jsToUpper (s.dropWhile isWsChar) := by
  rw [jsToUpper, jsToUpper, List.dropWhile_map]
  rw [show isWsChar ∘ Char.toUpper = isWsChar from funext isWsChar_toUpper]

/-- `reverse` commutes with character-wise uppercasing. -/
theorem reverse_jsToUpper (s : Str) :
    (jsToUpper s).reverse = jsToUpper s.reverse := by
  rw [jsToUpper, jsToUpper, List.map_reverse]

/-- Trimming commutes with uppercasing. -/
theorem jsTrim_jsToUpper (s : Str) : jsTrim (jsToUpper s) = jsToUpper (jsTrim s) := by
  rw [jsTrim, jsTrim, dropWhile_jsToUpper, reverse_jsToUpper, dropWhile_jsToUpper,
    reverse_jsToUpper]

/-- Trimming ignores surrounding whitespace. -/
theorem jsTrim_ws_append (w1 w2 s : Str)
    (h1 : ∀ c ∈ w1, isWsChar c = true) (h2 : ∀ c ∈ w2, isWsChar c = true) :
    jsTrim (w1 ++ s ++ w2) = jsTrim s := by
  rw [jsTrim, jsTrim, List.append_assoc, List.dropWhile_append_of_pos h1]
  cases hd : s.dropWhile isWsChar with
  | nil =>
    have hs : ∀ x ∈ s, isWsChar x = true := List.dropWhile_eq_nil_iff.1 hd
    have hall : (s ++ w2).dropWhile isWsChar = [] := by
      rw [List.dropWhile_append_of_pos hs, List.dropWhile_eq_nil_iff]
      exact h2
    rw [hall]
  | cons a as =>
    have hsplit : (s ++ w2).dropWhile isWsChar = s.dropWhile isWsChar ++ w2 := by
      rw [List.dropWhile_append, hd]
      simp
    have h2r : ∀ c ∈ w2.reverse, isWsChar c = true := fun c hc => h2 c (List.mem_reverse.1 hc)
    rw [hsplit, hd, List.reverse_append, List.dropWhile_append_of_pos h2r]

/-- Trimming a string with a non-whitespace head keeps that head in front. -/
theorem jsTrim_cons_head {c : Char} (hc : isWsChar c = false) (l : Str) :
    ∃ t, jsTrim (c :: l) = c :: t := by
  rw [jsTrim, List.dropWhile_cons, hc]
  simp only [Bool.false_eq_true, if_false, List.reverse_cons, List.dropWhile_append]
  cases hrl : l.reverse.dropWhile isWsChar with
  | nil =>
    refine ⟨[], ?_⟩
    simp [List.dropWhile_cons, hc]
  | cons a as =>
    refine ⟨(a :: as).reverse, ?_⟩
    simp

/-- A string with a CREATE TABLE prefix does not have a SELECT prefix. -/
theorem not_select_of_createTable {l : Str}
    (h : jsStartsWith "CREATE TABLE".toList l = true) :
    jsStartsWith "SELECT".toList l = false := by
  have hC : "CREATE TABLE".toList = 'C' :: "REATE TABLE".toList := by decide
  have hS : "SELECT".toList = 'S' :: "ELECT".toList := by decide
  rw [jsStartsWith] at h ⊢
  rw [hC] at h
  rw [hS]
  cases l with
  | nil => exact absurd h (by simp [List.isPrefixOf])
  | cons c cs =>
    simp only [List.isPrefixOf, Bool.and_eq_true, beq_iff_eq] at h
    obtain ⟨rfl, -⟩ := h
    simp [List.isPrefixOf]

/-- The CREATE TABLE guard forces the SELECT guard off. -/
theorem isSelect_eq_false_of_isCreateTable {s : Str} (h : isCreateTable s = true) :
    isSelect s = false := by
  rw [isCreateTable] at h
  rw [isSelect]
  exact not_select_of_createTable h

/-- Classification only looks at the uppercased trimmed statement. -/
theorem classify_eq_of_upper_trim_eq {s t : Str}
    (h : jsToUpper (jsTrim s) = jsToUpper (jsTrim t)) : classify s = classify t := by
  rw [classify, classify, isSelect, isSelect, isCreateTable, isCreateTable, h]

/-- A statement classifies as Read exactly when the SELECT guard holds. -/
theorem classify_eq_read_iff (s : Str) :
    classify s = SqlCategory.Read ↔ isSelect s = true := by
  rw [classify]
  split
  · simp_all
  · split <;> simp_all

/-- A statement with the CREATE TABLE prefix classifies as SchemaDefinition. -/
theorem classify_eq_schema_of_isCreateTable {s : Str} (h : isCreateTable s = true) :
    classify s = SqlCategory.SchemaDefinition := by
  rw [classify, isSelect_eq_false_of_isCreateTable h, h]
  rfl

/-- The PRAGMA statement built by `describeTable` never passes the SELECT
test of `query`, whatever the table name. -/
theorem isSelect_pragma (t : Str) :
    isSelect ("PRAGMA table_info(".toList ++ t ++ ")".toList) = false := by
  have hP : "PRAGMA table_info(".toList ++ t ++ ")".toList
      = 'P' :: ("RAGMA table_info(".toList ++ t ++ ")".toList) := by
    rw [show "PRAGMA table_info(".toList = 'P' :: "RAGMA table_info(".toList from by decide]
    rfl
  rw [isSelect, hP]
  obtain ⟨tl, htl⟩ := jsTrim_cons_head (show isWsChar 'P' = false from by decide)
    ("RAGMA table_info(".toList ++ t ++ ")".toList)
  rw [htl, jsToUpper, List.map_cons,
    show Char.toUpper 'P' = 'P' from by decide, jsStartsWith,
    show "SELECT".toList = 'S' :: "ELECT".toList from by decide]
  simp only [List.isPrefixOf]
  rw [show ('S' == 'P') = false from by decide]
  rfl

/-- Statements submitted to the engine by `executeReadQuery` classify as Read. -/
theorem executeReadQuery_submitted {e : Engine} {q : Str} {c : EngineCall}
    (hc : c ∈ (executeReadQuery e q).2) :
    classify q = SqlCategory.Read ∧ c = EngineCall.allCall q := by
  cases hs : isSelect q with
  | true =>
    have hcall : (executeReadQuery e q).2 = [EngineCall.allCall q] := by
      rw [executeReadQuery, query]
      simp [hs]
    rw [hcall] at hc
    simp only [List.mem_singleton] at hc
    exact ⟨(classify_eq_read_iff q).2 hs, hc⟩
  | false =>
    rw [executeReadQuery] at hc
    simp [hs] at hc

/-- Statements submitted to the engine by `executeWriteQuery` do not classify
as Read (they may classify as Write or as SchemaDefinition). -/
theorem executeWriteQuery_submitted {e : Engine} {q : Str} {c : EngineCall}
    (hc : c ∈ (executeWriteQuery e q).2) :
    classify q ≠ SqlCategory.Read ∧ c = EngineCall.runCall q := by
  cases hs : isSelect q with
  | true =>
    rw [executeWriteQuery] at hc
    simp [hs] at hc
  | false =>
    have hcall : (executeWriteQuery e q).2 = [EngineCall.runCall q] := by
      rw [executeWriteQuery, query]
      simp [hs]
    rw [hcall] at hc
    simp only [List.mem_singleton] at hc
    refine ⟨fun hr => ?_, hc⟩
    have hsel := (classify_eq_read_iff q).1 hr
    rw [hs] at hsel
    cases hsel

/-- Statements submitted to the engine by `createTable` classify as
SchemaDefinition. -/
theorem createTable_submitted {e : Engine} {q : Str} {c : EngineCall}
    (hc : c ∈ (createTable e q).2) :
    classify q = SqlCategory.SchemaDefinition ∧ c = EngineCall.runCall q := by
  cases hct : isCreateTable q with
  | false =>
    rw [createTable] at hc
    simp [hct] at hc
  | true =>
    have hsel := isSelect_eq_false_of_isCreateTable hct
    have hcall : (createTable e q).2 = [EngineCall.runCall q] := by
      rw [createTable, query]
      simp [hct, hsel]
    rw [hcall] at hc
    simp only [List.mem_singleton] at hc
    exact ⟨classify_eq_schema_of_isCreateTable hct, hc⟩

/-- The engine calls of a dispatch are the engine calls of its switch body. -/
theorem handleCallTool_calls (e : Engine) (ins : List Str) (name : String) (args : ArgBag) :
    (handleCallTool e ins name args).calls = (handleSwitch e ins name args).2.2 := by
  rw [handleCallTool]
  rcases h : handleSwitch e ins name args with ⟨res, ins', calls⟩
  cases res <;> rfl

/-- C1: `describe_table` is claimed to return column-metadata rows, but the
code routes the PRAGMA statement through the non-SELECT branch of `query`
(`db.run`), so for every engine and every table name the successful result
is the affected-count singleton `[{ affectedRows: n }]` — never a sequence
of column rows — and the statement reaches the engine as a `run` call. -/
theorem describeTable_returns_affected_count_not_rows (e : Engine) (t : Str) :
    (∀ rows, (describeTable e t).1 = Except.ok rows →
      ∃ n, rows = [[("affectedRows", Value.vnum n)]])
    ∧ (describeTable e t).2
      = [EngineCall.runCall ("PRAGMA table_info(".toList ++ t ++ ")".toList)] := by
  constructor
  · intro rows h
    rw [describeTable, query, isSelect_pragma] at h
    simp only [Bool.false_eq_true, if_false] at h
    cases hr : e.run ("PRAGMA table_info(".toList ++ t ++ ")".toList) with
    | error m =>
      rw [hr] at h
      simp [Except.map] at h
    | ok n =>
      rw [hr] at h
      simp only [Except.map, Except.ok.injEq] at h
      exact ⟨Int.ofNat n, h.symm⟩
  · rw [describeTable, query, isSelect_pragma]
    simp

/-- C1 witness: at the concrete engine `okEngine` and table name `t`,
`describeTable` produces the affected-count row and a `run` call. -/
theorem describeTable_returns_affected_count_not_rows_witness :
    (∃ n, ([[("affectedRows", Value.vnum 0)]] : List Row)
        = [[("affectedRows", Value.vnum n)]])
    ∧ (describeTable okEngine "t".toList).2
      = [EngineCall.runCall ("PRAGMA table_info(".toList ++ "t".toList ++ ")".toList)] :=
  ⟨(describeTable_returns_affected_count_not_rows okEngine "t".toList).1
      [[("affectedRows", Value.vnum 0)]] (by rfl),
   (describeTable_returns_affected_count_not_rows okEngine "t".toList).2⟩

set_option maxRecDepth 8192 in
/-- C2 counterexample: `write_query` (declared category Write) submits the
statement `CREATE TABLE t (x INTEGER)` to the engine although it classifies
as SchemaDefinition, not Write — so a submitted statement's classified
category can differ from the requesting operation's declared category. -/
theorem write_query_submits_schema_definition :
    declaredCategory "write_query" = some SqlCategory.Write
    ∧ EngineCall.runCall "CREATE TABLE t (x INTEGER)".toList
        ∈ (handleCallTool okEngine [] "write_query"
            [("query", Value.vstr "CREATE TABLE t (x INTEGER)".toList)]).calls
    ∧ classify "CREATE TABLE t (x INTEGER)".toList ≠ SqlCategory.Write := by
  refine ⟨rfl, ?_, ?_⟩ <;> decide

/-- C2 (amended): every statement submitted to the engine by `read_query`
classifies as Read and by `create_table` as SchemaDefinition; `write_query`
only guarantees the submitted statement does not classify as Read (it may be
Write or SchemaDefinition). -/
theorem submitted_statement_matches_guard (e : Engine) (ins : List Str)
    (name : String) (args : ArgBag) (c : EngineCall)
    (hc : c ∈ (handleCallTool e ins name args).calls) :
    (name = "read_query" → classify c.sql = SqlCategory.Read)
    ∧ (name = "write_query" → classify c.sql ≠ SqlCategory.Read)
    ∧ (name = "create_table" → classify c.sql = SqlCategory.SchemaDefinition) := by
  rw [handleCallTool_calls] at hc
  refine ⟨?_, ?_, ?_⟩ <;> rintro rfl
  · rw [handleSwitch] at hc
    simp only [String.reduceEq, reduceIte] at hc
    rcases hp : parseStringField args "query" with zerr | q
    · rw [hp] at hc
      simp at hc
    · rw [hp] at hc
      simp only [] at hc
      rcases he : executeReadQuery e q with ⟨res, calls⟩
      rw [he] at hc
      cases res <;> simp only [] at hc
      all_goals {
        have hmem : c ∈ (executeReadQuery e q).2 := by rw [he]; exact hc
        obtain ⟨hcat, rfl⟩ := executeReadQuery_submitted hmem
        exact hcat
      }
  · rw [handleSwitch] at hc
    simp only [String.reduceEq, reduceIte] at hc
    rcases hp : parseStringField args "query" with zerr | q
    · rw [hp] at hc
      simp at hc
    · rw [hp] at hc
      simp only [] at hc
      rcases he : executeWriteQuery e q with ⟨res, calls⟩
      rw [he] at hc
      cases res <;> simp only [] at hc
      all_goals {
        have hmem : c ∈ (executeWriteQuery e q).2 := by rw [he]; exact hc
        obtain ⟨hcat, rfl⟩ := executeWriteQuery_submitted hmem
        exact hcat
      }
  · rw [handleSwitch] at hc
    simp only [String.reduceEq, reduceIte] at hc
    rcases hp : parseStringField args "query" with zerr | q
    · rw [hp] at hc
      simp at hc
    · rw [hp] at hc
      simp only [] at hc
      rcases he : createTable e q with ⟨res, calls⟩
      rw [he] at hc
      cases res <;> simp only [] at hc
      all_goals {
        have hmem : c ∈ (createTable e q).2 := by rw [he]; exact hc
        obtain ⟨hcat, rfl⟩ := createTable_submitted hmem
        exact hcat
      }

set_option maxRecDepth 8192 in
/-- C2 (amended) witness: the concrete `read_query` dispatch submits
`SELECT 1` and the guarantees hold there. -/
theorem submitted_statement_matches_guard_witness :
    (("read_query" : String) = "read_query"
        → classify (EngineCall.allCall "SELECT 1".toList).sql = SqlCategory.Read)
    ∧ (("read_query" : String) = "write_query"
        → classify (EngineCall.allCall "SELECT 1".toList).sql ≠ SqlCategory.Read)
    ∧ (("read_query" : String) = "create_table"
        → classify (EngineCall.allCall "SELECT 1".toList).sql = SqlCategory.SchemaDefinition) :=
  submitted_statement_matches_guard okEngine [] "read_query"
    [("query", Value.vstr "SELECT 1".toList)] (EngineCall.allCall "SELECT 1".toList)
    (by decide)

/-- Every success envelope produced by the switch body is a single text item
with the error flag unset. -/
theorem handleSwitch_ok_shape {e : Engine} {ins : List Str} {name : String}
    {args : ArgBag} {env : Envelope} {ins' : List Str} {calls : List EngineCall}
    (h : handleSwitch e ins name args = (Except.ok env, ins', calls)) :
    env.isError = false ∧ ∃ t, env.content = [t] := by
  rw [handleSwitch] at h
  repeat' split at h
  all_goals simp_all [Prod.mk.injEq]
  all_goals obtain ⟨heq, -, -⟩ := h
  all_goals subst heq
  all_goals exact ⟨rfl, _, rfl⟩

/-- C3: every dispatch call terminates in a response envelope holding exactly
one text item; the error flag is unset exactly on the success paths of the
switch body, and every thrown error is converted to the same envelope shape
with the flag set. -/
theorem dispatch_always_envelopes (e : Engine) (ins : List Str) (name : String)
    (args : ArgBag) :
    (∃ t, (handleCallTool e ins name args).envelope.content = [t])
    ∧ ((handleCallTool e ins name args).envelope.isError = false
        ↔ ∃ env, (handleSwitch e ins name args).1 = Except.ok env)
    ∧ (∀ msg, (handleSwitch e ins name args).1 = Except.error msg →
        (handleCallTool e ins name args).envelope
          = ⟨["Error: ".toList ++ msg], true⟩) := by
  rcases h : handleSwitch e ins name args with ⟨res, ins2, calls⟩
  cases res with
  | error msg =>
    have hred : handleCallTool e ins name args
        = ⟨⟨["Error: ".toList ++ msg], true⟩, ins2, calls⟩ := by
      rw [handleCallTool, h]
    refine ⟨⟨"Error: ".toList ++ msg, by rw [hred]⟩, ?_, ?_⟩
    · rw [hred]
      simp
    · intro m hm
      have hmm : msg = m := by simpa using hm
      rw [hred, hmm]
  | ok env =>
    obtain ⟨hflag, t, hcontent⟩ := handleSwitch_ok_shape h
    have hred : handleCallTool e ins name args = ⟨env, ins2, calls⟩ := by
      rw [handleCallTool, h]
    refine ⟨⟨t, by rw [hred]; exact hcontent⟩, ?_, ?_⟩
    · rw [hred]
      simp [hflag]
    · intro m hm
      simp at hm

/-- C3 witness: the envelope shape at a concrete dispatch (unknown tool). -/
theorem dispatch_always_envelopes_witness :
    (∃ t, (handleCallTool okEngine [] "nope" []).envelope.content = [t])
    ∧ ((handleCallTool okEngine [] "nope" []).envelope.isError = false
        ↔ ∃ env, (handleSwitch okEngine [] "nope" []).1 = Except.ok env)
    ∧ (∀ msg, (handleSwitch okEngine [] "nope" []).1 = Except.error msg →
        (handleCallTool okEngine [] "nope" []).envelope
          = ⟨["Error: ".toList ++ msg], true⟩) :=
  dispatch_always_envelopes okEngine [] "nope" []

/-- C4: classification trims surrounding whitespace, is insensitive to the
letter case of the statement (it depends only on the uppercased text), and
is determined by the leading keyword after trimming and uppercasing: a
SELECT prefix gives Read, a CREATE TABLE prefix gives SchemaDefinition, and
everything else gives Write. -/
theorem classify_prefix_spec (w1 w2 s t : Str)
    (h1 : ∀ c ∈ w1, isWsChar c = true) (h2 : ∀ c ∈ w2, isWsChar c = true)
    (hcase : jsToUpper s = jsToUpper t) :
    classify (w1 ++ s ++ w2) = classify s
    ∧ classify s = classify t
    ∧ (isSelect s = true → classify s = SqlCategory.Read)
    ∧ (isCreateTable s = true → classify s = SqlCategory.SchemaDefinition)
    ∧ (isSelect s = false → isCreateTable s = false → classify s = SqlCategory.Write) := by
  refine ⟨?_, ?_, ?_, ?_, ?_⟩
  · apply classify_eq_of_upper_trim_eq
    rw [jsTrim_ws_append w1 w2 s h1 h2]
  · apply classify_eq_of_upper_trim_eq
    rw [← jsTrim_jsToUpper, ← jsTrim_jsToUpper, hcase]
  · exact fun hs => (classify_eq_read_iff s).2 hs
  · exact fun hct => classify_eq_schema_of_isCreateTable hct
  · intro hs hct
    rw [classify, hs, hct]
    rfl

/-- C4 witness: whitespace around and lowercasing of `SELECT * FROM T` do
not change its classification, and the three keyword cases evaluate as
stated on it. -/
theorem classify_prefix_spec_witness :
    classify ("  ".toList ++ "select * from T".toList ++ " ".toList)
      = classify "select * from T".toList
    ∧ classify "select * from T".toList = classify "SELECT * FROM T".toList
    ∧ (isSelect "select * from T".toList = true
        → classify "select * from T".toList = SqlCategory.Read)
    ∧ (isCreateTable "select * from T".toList = true
        → classify "select * from T".toList = SqlCategory.SchemaDefinition)
    ∧ (isSelect "select * from T".toList = false
        → isCreateTable "select * from T".toList = false
        → classify "select * from T".toList = SqlCategory.Write) :=
  classify_prefix_spec "  ".toList " ".toList "select * from T".toList
    "SELECT * FROM T".toList (by decide) (by decide) (by decide)

/-- C5: `synthesizeMemo` on the empty ledger is exactly the fixed message;
on a one-element ledger it is the fixed header plus that insight's bulleted
line and no summary; on a ledger with more than one insight it is the
header, the bulleted lines in append order, and the fixed-format summary
line carrying the total count. -/
theorem synthesizeMemo_rendering (x : Str) (l : List Str) (h : 1 < l.length) :
    synthesizeMemo [] = "No business insights have been discovered yet.".toList
    ∧ synthesizeMemo [x]
      = "📊 Business Intelligence Memo 📊\n\n".toList
        ++ "Key Insights Discovered:\n\n".toList ++ ("- ".toList ++ x)
    ∧ synthesizeMemo l
      = "📊 Business Intelligence Memo 📊\n\n".toList
        ++ "Key Insights Discovered:\n\n".toList
        ++ List.intercalate "\n".toList (l.map (fun i => "- ".toList ++ i))
        ++ "\n\nSummary:\n".toList
        ++ ("Analysis has revealed ".toList ++ (toString l.length).toList
            ++ " key business insights that suggest opportunities for strategic optimization and growth.".toList) := by
  refine ⟨rfl, ?_, ?_⟩
  · rw [synthesizeMemo]
    simp [List.intercalate]
  · simp only [synthesizeMemo]
    rw [if_neg (by omega), if_pos (by omega)]

set_option maxRecDepth 16384 in
/-- C5 witness: the memo after appending `Revenue grew 12%` then
`Churn dropped`, with the summary line stating the count 2. -/
theorem synthesizeMemo_rendering_witness :
    synthesizeMemo ["Revenue grew 12%".toList, "Churn dropped".toList]
      = ("📊 Business Intelligence Memo 📊\n\nKey Insights Discovered:\n\n- Revenue grew 12%\n- Churn dropped\n\nSummary:\nAnalysis has revealed 2 key business insights that suggest opportunities for strategic optimization and growth.").toList := by
  have h := synthesizeMemo_rendering "Revenue grew 12%".toList
    ["Revenue grew 12%".toList, "Churn dropped".toList] (by decide)
  exact h.2.2.trans (by decide)

/-- C6: when the engine rejects or fails a submitted statement, the
error-flagged envelope's text is exactly `Error: ` followed by the engine's
message — the message itself passed through verbatim, unmodified. -/
theorem engine_error_passthrough (e : Engine) (ins : List Str) (q msg : Str) :
    (isSelect q = true → e.all q = Except.error msg →
      handleCallTool e ins "read_query" [("query", Value.vstr q)]
        = ⟨⟨["Error: ".toList ++ msg], true⟩, ins, [EngineCall.allCall q]⟩)
    ∧ (isSelect q = false → e.run q = Except.error msg →
      handleCallTool e ins "write_query" [("query", Value.vstr q)]
        = ⟨⟨["Error: ".toList ++ msg], true⟩, ins, [EngineCall.runCall q]⟩) := by
  constructor
  · intro hs he
    have hp : parseStringField [("query", Value.vstr q)] "query" = Except.ok q := rfl
    have hr : executeReadQuery e q = (Except.error msg, [EngineCall.allCall q]) := by
      rw [executeReadQuery, query]
      simp [hs, he]
    rw [handleCallTool, handleSwitch]
    simp only [String.reduceEq, reduceIte, hp, hr]
  · intro hs he
    have hp : parseStringField [("query", Value.vstr q)] "query" = Except.ok q := rfl
    have hr : executeWriteQuery e q = (Except.error msg, [EngineCall.runCall q]) := by
      rw [executeWriteQuery, query]
      simp [hs, he, Except.map]
    rw [handleCallTool, handleSwitch]
    simp only [String.reduceEq, reduceIte, hp, hr]

/-- C6 witness: the concrete failing engine's message reappears verbatim
after the `Error: ` marker in both the read and the write path. -/
theorem engine_error_passthrough_witness :
    (isSelect "SELECT * FROM nope".toList = true
      → failEngine.all "SELECT * FROM nope".toList
          = Except.error "SQLITE_ERROR: no such table: nope".toList
      → handleCallTool failEngine [] "read_query"
            [("query", Value.vstr "SELECT * FROM nope".toList)]
          = ⟨⟨["Error: ".toList ++ "SQLITE_ERROR: no such table: nope".toList], true⟩, [],
             [EngineCall.allCall "SELECT * FROM nope".toList]⟩)
    ∧ (isSelect "SELECT * FROM nope".toList = false
      → failEngine.run "SELECT * FROM nope".toList
          = Except.error "SQLITE_ERROR: no such table: nope".toList
      → handleCallTool failEngine [] "write_query"
            [("query", Value.vstr "SELECT * FROM nope".toList)]
          = ⟨⟨["Error: ".toList ++ "SQLITE_ERROR: no such table: nope".toList], true⟩, [],
             [EngineCall.runCall "SELECT * FROM nope".toList]⟩) :=
  engine_error_passthrough failEngine [] "SELECT * FROM nope".toList
    "SQLITE_ERROR: no such table: nope".toList

set_option maxRecDepth 16384 in
/-- C7 counterexample: appending the insight `X` when the ledger already
contains `X` yields a memo in which `X` occurs twice, not exactly once —
refuting the claim for arbitrary ledgers. -/
theorem roundtrip_exactly_once_counterexample :
    countOccur "X".toList (synthesizeMemo (appendInsight ["X".toList] "X".toList)) ≠ 1
    ∧ countOccur "X".toList (synthesizeMemo (appendInsight ["X".toList] "X".toList)) = 2 := by
  constructor <;> decide

/-- C7 (amended): `append_insight` appends X verbatim as the new last ledger
entry; when X was not already in the ledger it now occurs exactly once in
it; and the memo renders the bulleted lines of the new ledger in append
order — X's bullet appearing untruncated in final position — followed only
by the summary suffix.  (Exactly-once occurrence inside the memo text
additionally requires X not to occur elsewhere in the rendered text, as in
the counterexample's duplicate-ledger situation.) -/
theorem append_roundtrip_verbatim (l : List Str) (x : Str) (hx : x ∉ l) :
    appendInsight l x = l ++ [x]
    ∧ (appendInsight l x).count x = l.count x + 1
    ∧ (appendInsight l x).count x = 1
    ∧ ∃ tail, synthesizeMemo (appendInsight l x)
        = "📊 Business Intelligence Memo 📊\n\n".toList
          ++ "Key Insights Discovered:\n\n".toList
          ++ List.intercalate "\n".toList ((l ++ [x]).map (fun i => "- ".toList ++ i))
          ++ tail := by
  have hcount : (appendInsight l x).count x = l.count x + 1 := by
    rw [appendInsight, List.count_append]
    simp
  refine ⟨rfl, hcount, ?_, ?_⟩
  · rw [hcount, List.count_eq_zero.2 hx]
  · rw [appendInsight]
    by_cases hl : 1 < (l ++ [x]).length
    · refine ⟨"\n\nSummary:\n".toList
        ++ ("Analysis has revealed ".toList ++ (toString (l ++ [x]).length).toList
            ++ " key business insights that suggest opportunities for strategic optimization and growth.".toList), ?_⟩
      simp only [synthesizeMemo]
      rw [if_neg (by omega), if_pos hl]
      simp [List.append_assoc]
    · refine ⟨[], ?_⟩
      simp only [synthesizeMemo]
      rw [if_neg (by simp), if_neg hl]
      simp

/-- C7 (amended) witness: appending `Revenue grew 12%` to the ledger
holding `Churn dropped`. -/
theorem append_roundtrip_verbatim_witness :
    appendInsight ["Churn dropped".toList] "Revenue grew 12%".toList
      = ["Churn dropped".toList] ++ ["Revenue grew 12%".toList]
    ∧ (appendInsight ["Churn dropped".toList] "Revenue grew 12%".toList).count
        "Revenue grew 12%".toList
      = (["Churn dropped".toList] : List Str).count "Revenue grew 12%".toList + 1
    ∧ (appendInsight ["Churn dropped".toList] "Revenue grew 12%".toList).count
        "Revenue grew 12%".toList = 1
    ∧ ∃ tail, synthesizeMemo (appendInsight ["Churn dropped".toList] "Revenue grew 12%".toList)
        = "📊 Business Intelligence Memo 📊\n\n".toList
          ++ "Key Insights Discovered:\n\n".toList
          ++ List.intercalate "\n".toList
              ((["Churn dropped".toList] ++ ["Revenue grew 12%".toList]).map
                (fun i => "- ".toList ++ i))
          ++ tail :=
  append_roundtrip_verbatim ["Churn dropped".toList] "Revenue grew 12%".toList (by decide)

/-- The insight ledger returned by a dispatch is the one of its switch body. -/
theorem handleCallTool_insights (e : Engine) (ins : List Str) (name : String)
    (args : ArgBag) :
    (handleCallTool e ins name args).insights = (handleSwitch e ins name args).2.1 := by
  rw [handleCallTool]
  rcases h : handleSwitch e ins name args with ⟨res, ins', calls⟩
  cases res <;> rfl

/-- Only `append_insight` can change the ledger inside the switch body. -/
theorem handleSwitch_insights_of_ne {e : Engine} {ins : List Str} {name : String}
    {args : ArgBag} (h : name ≠ "append_insight") :
    (handleSwitch e ins name args).2.1 = ins := by
  rw [handleSwitch]
  repeat' split
  all_goals first
    | rfl
    | exact absurd (by assumption) h

/-- C8: when argument validation fails for a catalogued operation with a
required field (missing field or wrong primitive type), dispatch returns the
validation-error envelope, makes no engine call, and leaves the insight
ledger unchanged — the classifier and executor are never reached. -/
theorem validation_rejects_before_execution (e : Engine) (ins : List Str)
    (args : ArgBag) (zerr : Str) :
    (parseStringField args "query" = Except.error zerr →
        handleCallTool e ins "read_query" args
          = ⟨⟨["Error: ".toList
                ++ ("Invalid arguments for read_query: ".toList ++ zerr)], true⟩, ins, []⟩
        ∧ handleCallTool e ins "write_query" args
          = ⟨⟨["Error: ".toList
                ++ ("Invalid arguments for write_query: ".toList ++ zerr)], true⟩, ins, []⟩
        ∧ handleCallTool e ins "create_table" args
          = ⟨⟨["Error: ".toList
                ++ ("Invalid arguments for create_table: ".toList ++ zerr)], true⟩, ins, []⟩)
    ∧ (parseStringField args "table_name" = Except.error zerr →
        handleCallTool e ins "describe_table" args
          = ⟨⟨["Error: ".toList
                ++ ("Invalid arguments for describe_table: ".toList ++ zerr)], true⟩, ins, []⟩)
    ∧ (parseStringField args "insight" = Except.error zerr →
        handleCallTool e ins "append_insight" args
          = ⟨⟨["Error: ".toList
                ++ ("Invalid arguments for append_insight: ".toList ++ zerr)], true⟩, ins, []⟩) := by
  refine ⟨fun hp => ⟨?_, ?_, ?_⟩, fun hp => ?_, fun hp => ?_⟩ <;>
    · rw [handleCallTool, handleSwitch]
      simp only [String.reduceEq, reduceIte, hp]

/-- C8 witness: the empty argument bag fails validation (`Required`) for
`write_query` and the other operations, without any engine call. -/
theorem validation_rejects_before_execution_witness :
    (parseStringField [] "query" = Except.error "Required".toList →
        handleCallTool okEngine [] "read_query" []
          = ⟨⟨["Error: ".toList
                ++ ("Invalid arguments for read_query: ".toList ++ "Required".toList)],
              true⟩, [], []⟩
        ∧ handleCallTool okEngine [] "write_query" []
          = ⟨⟨["Error: ".toList
                ++ ("Invalid arguments for write_query: ".toList ++ "Required".toList)],
              true⟩, [], []⟩
        ∧ handleCallTool okEngine [] "create_table" []
          = ⟨⟨["Error: ".toList
                ++ ("Invalid arguments for create_table: ".toList ++ "Required".toList)],
              true⟩, [], []⟩)
    ∧ (parseStringField [] "table_name" = Except.error "Required".toList →
        handleCallTool okEngine [] "describe_table" []
          = ⟨⟨["Error: ".toList
                ++ ("Invalid arguments for describe_table: ".toList ++ "Required".toList)],
              true⟩, [], []⟩)
    ∧ (parseStringField [] "insight" = Except.error "Required".toList →
        handleCallTool okEngine [] "append_insight" []
          = ⟨⟨["Error: ".toList
                ++ ("Invalid arguments for append_insight: ".toList ++ "Required".toList)],
              true⟩, [], []⟩) :=
  validation_rejects_before_execution okEngine [] [] "Required".toList

/-- C9: an operation name outside the catalog is rejected with the
`Unknown tool` error envelope; no engine call is made and the ledger is
unchanged, for any argument bag. -/
theorem unknown_tool_rejected (e : Engine) (ins : List Str) (name : String)
    (args : ArgBag)
    (h : name ∉ ["read_query", "write_query", "create_table", "list_tables",
                 "describe_table", "append_insight"]) :
    handleCallTool e ins name args
      = ⟨⟨["Error: Unknown tool: ".toList ++ name.toList], true⟩, ins, []⟩ := by
  simp only [List.mem_cons, List.not_mem_nil, or_false, not_or] at h
  obtain ⟨h1, h2, h3, h4, h5, h6⟩ := h
  have hcat : "Error: ".toList ++ ("Unknown tool: ".toList ++ name.toList)
      = "Error: Unknown tool: ".toList ++ name.toList := by
    rw [← List.append_assoc]
    congr 1
  rw [handleCallTool, handleSwitch]
  simp only [if_neg h1, if_neg h2, if_neg h3, if_neg h4, if_neg h5, if_neg h6, hcat]

/-- C9 witness: the unknown name `drop_everything` is rejected. -/
theorem unknown_tool_rejected_witness :
    handleCallTool okEngine [] "drop_everything" []
      = ⟨⟨["Error: Unknown tool: ".toList ++ "drop_everything".toList], true⟩, [], []⟩ :=
  unknown_tool_rejected okEngine [] "drop_everything" [] (by decide)

/-- C10: the SQL-executing operations leave the insight ledger unchanged; a
validated `append_insight` appends exactly its insight at the end of the
ledger, leaves the earlier entries unchanged, and makes no engine call
(`append_insight` never touches the database; `synthesizeMemo` is embedded
as a pure function of the ledger, with no state to modify). -/
theorem frame_effects (e : Engine) (ins : List Str) (args : ArgBag) :
    (∀ name, name ∈ ["read_query", "write_query", "create_table", "list_tables",
        "describe_table"] → (handleCallTool e ins name args).insights = ins)
    ∧ (∀ x, parseStringField args "insight" = Except.ok x →
        handleCallTool e ins "append_insight" args
          = ⟨⟨["Insight added to memo".toList], false⟩, ins ++ [x], []⟩)
    ∧ (handleCallTool e ins "append_insight" args).calls = [] := by
  refine ⟨?_, ?_, ?_⟩
  · intro name hname
    rw [handleCallTool_insights]
    apply handleSwitch_insights_of_ne
    fin_cases hname <;> decide
  · intro x hp
    rw [handleCallTool, handleSwitch]
    simp only [String.reduceEq, reduceIte, hp, appendInsight]
  · rw [handleCallTool_calls, handleSwitch]
    rcases hp : parseStringField args "insight" with zerr | x <;>
      simp only [String.reduceEq, reduceIte, hp]

/-- C10 witness: a concrete read leaves the ledger alone; a concrete append
extends it by exactly its insight and makes no engine call. -/
theorem frame_effects_witness :
    (handleCallTool okEngine ["a".toList] "read_query"
        [("query", Value.vstr "SELECT 1".toList)]).insights = ["a".toList]
    ∧ handleCallTool okEngine ["a".toList] "append_insight"
        [("insight", Value.vstr "X".toList)]
      = ⟨⟨["Insight added to memo".toList], false⟩, ["a".toList] ++ ["X".toList], []⟩
    ∧ (handleCallTool okEngine ["a".toList] "append_insight"
        [("insight", Value.vstr "X".toList)]).calls = [] :=
  ⟨(frame_effects okEngine ["a".toList] [("query", Value.vstr "SELECT 1".toList)]).1
      "read_query" (by decide),
   (frame_effects okEngine ["a".toList] [("insight", Value.vstr "X".toList)]).2.1
      "X".toList rfl,
   (frame_effects okEngine ["a".toList] [("insight", Value.vstr "X".toList)]).2.2⟩

end McpSqlite
